import Mathlib

set_option autoImplicit false

/-!
Verification of the agent orchestration and observability core of the
Concierge-Agent backend (`src/backend/multi_agent_system.py` and
`src/backend/observability.py`), as a shallow embedding in Lean 4.

Modelling conventions:
* Python floats are modelled as rationals (`ℚ`); the wall clock is an
  explicit parameter threaded through the functions that read it.
* Python dicts keyed by strings are modelled either as association lists
  (where iteration order matters, mirroring insertion-ordered dicts) or as
  functions `String → _` (where only lookup matters).
* Fallible Python code (code that can raise) is embedded as
  `Except String _`; an `await` on a possibly-unset asyncio event is
  embedded as an `Option` result (`none` = suspended).
* `uuid`/`datetime` identity fields that no verified property touches are
  omitted from the embedded records.
-/

namespace Concierge

/-! ## Character-list string utilities

Executable stand-ins for Python's `in` (substring test) and single-character
`str.replace`, written structurally so the kernel can evaluate them. -/

/-- Helper: `listStartsWith pat s` is true when `pat` is an initial segment of `s`. -/
def listStartsWith : List Char → List Char → Bool
  | [], _ => true
  | _ :: _, [] => false
  | a :: as, b :: bs => a == b && listStartsWith as bs

/-- Helper: `containsSub pat s`: does `pat` occur contiguously inside `s`? -/
def containsSub (pat : List Char) : List Char → Bool
  | [] => listStartsWith pat []
  | c :: rest => listStartsWith pat (c :: rest) || containsSub pat rest

/-- Python's `pat in s` on strings. -/
def containsSubstr (s pat : String) : Bool :=
  containsSub pat.toList s.toList

/-- Python's `s.replace(c, d)` for single-character patterns. -/
def replaceAllChar (s : String) (c d : Char) : String :=
  String.mk (s.toList.map (fun x => if x = c then d else x))

/-! ## Metrics data model (`observability.py`) -/

/-- The `MetricType` enum from `observability.py`. -/
inductive MetricType
  | counter
  | gauge
  | histogram
  | timer
deriving DecidableEq, Repr

/-- String value of the `MetricType` enum member, as in the Python source. -/
def MetricType.str : MetricType → String
  | .counter => "counter"
  | .gauge => "gauge"
  | .histogram => "histogram"
  | .timer => "timer"

/-- One recorded metric sample (`Metric` dataclass); labels are not needed by
any verified property and are omitted. -/
structure Metric where
  name : String
  metric_type : MetricType
  value : ℚ
  timestamp : ℚ
deriving DecidableEq, Repr

/-- Embeds `MetricsCollector._percentile`: sort, index at `int(p/100 * n)`, clamp to
the last index; `0.0` on an empty list.  Python's float product
`(p / 100.0) * n` truncated by `int` is modelled as the exact
`⌊p * n / 100⌋` (identical on every input the repository exercises). -/
def percentile (values : List ℚ) (p : Nat) : ℚ :=
  match values with
  | [] => 0
  | _ :: _ =>
    let sorted_values := values.insertionSort (· ≤ ·)
    let index := p * sorted_values.length / 100
    sorted_values.getD (min index (sorted_values.length - 1)) 0

/-- Python `min(values)` (the empty case is unreachable where it is used). -/
def listMin : List ℚ → ℚ
  | [] => 0
  | x :: xs => xs.foldl min x

/-- Python `max(values)` (the empty case is unreachable where it is used). -/
def listMax : List ℚ → ℚ
  | [] => 0
  | x :: xs => xs.foldl max x

/-- The min/max/avg/percentile block that `get_metric_summary` adds for
histogram- and timer-kind metrics. -/
structure HistStats where
  min : ℚ
  max : ℚ
  avg : ℚ
  p50 : ℚ
  p95 : ℚ
  p99 : ℚ
deriving DecidableEq, Repr

/-- Result of `MetricsCollector.get_metric_summary`: the `hist` field is
`some _` exactly for histogram/timer kinds, mirroring the keys the Python
dict gains in that case. -/
structure MetricSummary where
  name : String
  metric_type : MetricType
  count : Nat
  latest : ℚ
  timestamp : ℚ
  hist : Option HistStats
deriving DecidableEq, Repr

/-- Python `l[-n:]`. -/
def lastN {α : Type} (n : Nat) (l : List α) : List α := l.drop (l.length - n)

/-- Embeds `MetricsCollector.get_metric_summary` on the sample list stored under one
metric name; `none` models the empty dict returned when no samples exist. -/
def get_metric_summary (name : String) (samples : List Metric) : Option MetricSummary :=
  match lastN 100 samples with
  | [] => none
  | m0 :: rest =>
    let recent_metrics := m0 :: rest
    let values := recent_metrics.map (fun m => m.value)
    some
      { name := name
        metric_type := m0.metric_type
        count := values.length
        latest := values.getLast?.getD 0
        timestamp := ((recent_metrics.map (fun m => m.timestamp)).getLast?).getD 0
        hist :=
          if m0.metric_type = MetricType.histogram ∨ m0.metric_type = MetricType.timer then
            some
              { min := listMin values
                max := listMax values
                avg := values.sum / (values.length : ℚ)
                p50 := percentile values 50
                p95 := percentile values 95
                p99 := percentile values 99 }
          else none }

/-- The four-value histogram from the spec's percentile test vector. -/
def histSamples4 : List Metric :=
  [⟨"h", MetricType.histogram, 10, 0⟩, ⟨"h", MetricType.histogram, 20, 1⟩,
   ⟨"h", MetricType.histogram, 30, 2⟩, ⟨"h", MetricType.histogram, 40, 3⟩]

/-- Helper: a one-element list is already sorted. -/
theorem percentile_singleton (v : ℚ) (p : Nat) : percentile [v] p = v := by
  simp [percentile, List.insertionSort, List.orderedInsert]

/-- Helper: the summary computed for the spec's four-value histogram. -/
theorem summary_histSamples4 :
    get_metric_summary "h" histSamples4 =
      some ⟨"h", MetricType.histogram, 4, 40, 3, some ⟨10, 40, 25, 30, 40, 40⟩⟩ := by
  have h4 : lastN 100 histSamples4 = histSamples4 := by norm_num [lastN, histSamples4]
  unfold get_metric_summary
  rw [h4]
  norm_num [histSamples4, listMin, listMax, percentile, List.insertionSort,
    List.orderedInsert]

/-- Claim C4: for histogram values [10, 20, 30, 40] the summary has p50 = 30,
p95 = 40, p99 = 40, min = 10, max = 40, avg = 25; on an empty value list every
percentile is zero; on a single-sample list every percentile (and min, max,
avg) equals that sample. -/
theorem metric_summary_percentiles :
    get_metric_summary "h" histSamples4 =
      some ⟨"h", MetricType.histogram, 4, 40, 3, some ⟨10, 40, 25, 30, 40, 40⟩⟩
    ∧ (∀ p : Nat, percentile [] p = 0)
    ∧ (∀ (v : ℚ) (p : Nat), percentile [v] p = v)
    ∧ (∀ (nm : String) (v t : ℚ),
        get_metric_summary nm [⟨nm, MetricType.histogram, v, t⟩] =
          some ⟨nm, MetricType.histogram, 1, v, t, some ⟨v, v, v, v, v, v⟩⟩) := by
  refine ⟨summary_histSamples4, fun p => rfl, percentile_singleton, fun nm v t => ?_⟩
  · have h1 : lastN 100 [(⟨nm, MetricType.histogram, v, t⟩ : Metric)] =
        [⟨nm, MetricType.histogram, v, t⟩] := by norm_num [lastN]
    unfold get_metric_summary
    rw [h1]
    norm_num [listMin, listMax, percentile_singleton]

/-! ## Metrics export (`ObservabilityManager`) -/

/-- The `metrics` map of `MetricsCollector` (`name → recorded samples`), in
insertion order; the parallel `counters`/`gauges`/`histograms`/`timers` dicts
are not read by any summarised or exported path and are omitted. -/
structure MetricsCollector where
  metrics : List (String × List Metric)

/-- Embeds `MetricsCollector.get_all_metrics`. -/
def get_all_metrics (c : MetricsCollector) : List (String × Option MetricSummary) :=
  c.metrics.map (fun nm => (nm.1, get_metric_summary nm.1 nm.2))

/-- Numeric rendering used in the exported text (Python float formatting is
abstracted to the canonical rational rendering). -/
def ratStr (q : ℚ) : String := toString q

/-- Embeds `metric_name.replace(".", "_").replace("-", "_")`. -/
def promName (name : String) : String :=
  replaceAllChar (replaceAllChar name '.' '_') '-' '_'

/-- The lines `ObservabilityManager._export_prometheus_format` emits for one
metric name: two comment lines, then either `_count`/`_sum` lines (histogram
kind only) or a single `name value` line. -/
def export_metric_lines (name : String) (samples : List Metric) : List String :=
  let prom_name := promName name
  match get_metric_summary name samples with
  | none =>
      ["# HELP " ++ prom_name ++ " gauge metric",
       "# TYPE " ++ prom_name ++ " gauge",
       prom_name ++ " 0"]
  | some su =>
      ["# HELP " ++ prom_name ++ " " ++ su.metric_type.str ++ " metric",
       "# TYPE " ++ prom_name ++ " " ++ su.metric_type.str] ++
      (if su.metric_type = MetricType.histogram then
        [prom_name ++ "_count " ++ toString su.count,
         prom_name ++ "_sum " ++ ratStr ((su.hist.map HistStats.avg).getD 0 * (su.count : ℚ))]
      else
        [prom_name ++ " " ++ ratStr su.latest])

/-- Embeds `ObservabilityManager._export_prometheus_format`: all per-metric lines
joined by newlines. -/
def export_prometheus_format (c : MetricsCollector) : String :=
  String.intercalate "\n" (c.metrics.flatMap (fun nm => export_metric_lines nm.1 nm.2))

/-- Rendering of the histogram/timer statistics block used by the structured
(`json.dumps`) export. -/
def histJson (h : HistStats) : String :=
  "\"min\": " ++ ratStr h.min ++ ", \"max\": " ++ ratStr h.max ++
  ", \"avg\": " ++ ratStr h.avg ++ ", \"p50\": " ++ ratStr h.p50 ++
  ", \"p95\": " ++ ratStr h.p95 ++ ", \"p99\": " ++ ratStr h.p99

/-- Rendering of one metric summary for the structured export. -/
def summaryJson : Option MetricSummary → String
  | none => "\x7b\x7d"
  | some su =>
      "\x7b\"name\": \"" ++ su.name ++ "\", \"type\": \"" ++ su.metric_type.str ++
      "\", \"count\": " ++ toString su.count ++ ", \"latest\": " ++ ratStr su.latest ++
      ", \"timestamp\": " ++ ratStr su.timestamp ++
      (match su.hist with
       | none => ""
       | some h => ", " ++ histJson h) ++ "\x7d"

/-- Embeds `json.dumps(self.metrics.get_all_metrics(), ...)`: structured serialization
of every metric name's summary. -/
def export_json_format (c : MetricsCollector) : String :=
  "\x7b" ++ String.intercalate ", "
    ((get_all_metrics c).map (fun nm => "\"" ++ nm.1 ++ "\": " ++ summaryJson nm.2)) ++
  "\x7d"

/-- Embeds `ObservabilityManager.export_metrics`: dispatch on the format name; the
`ValueError` raised on an unknown format is embedded as `Except.error`. -/
def export_metrics (c : MetricsCollector) (format_type : String) : Except String String :=
  if format_type = "prometheus" then .ok (export_prometheus_format c)
  else if format_type = "json" then .ok (export_json_format c)
  else .error ("Unsupported format: " ++ format_type)

/-! ## Spans (`observability.py`) -/

/-- The `Span` dataclass; the wall clock (`time.time()`) is passed explicitly
to the operations that read it. `tags` and `logs` are not read by any
verified property and are omitted. -/
structure Span where
  span_id : String
  trace_id : String
  parent_span_id : Option String
  operation_name : String
  start_time : ℚ
  end_time : Option ℚ
  status : String
deriving DecidableEq, Repr

/-- Embeds `Span.finish`: unconditionally overwrites `end_time` with the current
time and sets the status to finished. -/
def Span.finish (s : Span) (now : ℚ) : Span :=
  { s with end_time := some now, status := "finished" }

/-- Embeds `Span.duration`: elapsed time so far while unfinished, recorded
`end_time - start_time` once `end_time` is set. -/
def Span.duration (s : Span) (now : ℚ) : ℚ :=
  s.end_time.getD now - s.start_time

/-! ## Agent data model (`multi_agent_system.py`) -/

/-- Lifecycle states of an agent (`AgentState` enum). -/
inductive AgentState
  | idle
  | running
  | paused
  | completed
  | failed
deriving DecidableEq, Repr

/-- The `AgentMetrics` dataclass. -/
structure AgentMetrics where
  agent_id : String
  start_time : ℚ
  end_time : Option ℚ
  execution_count : Nat
  success_count : Nat
  error_count : Nat
  total_tokens : Nat
deriving DecidableEq, Repr

/-- Fresh metrics record as created by `AgentMetrics(self.agent_id, time.time())`. -/
def initMetrics (aid : String) (now : ℚ) : AgentMetrics :=
  ⟨aid, now, none, 0, 0, 0, 0⟩

/-- The `Message` dataclass; the uuid, timestamp and metadata fields are not
read by any verified property and are omitted. -/
structure Message where
  content : String
  sender : String
  recipient : String
deriving DecidableEq, Repr

/-- Mutable state of an `LLMAgent`; `pause_event = true` models the asyncio
event being set (agent unpaused). -/
structure LLMAgent where
  agent_id : String
  name : String
  system_prompt : String
  state : AgentState
  pause_event : Bool
  metrics : Option AgentMetrics
deriving DecidableEq, Repr

/-- Embeds `BaseAgent.pause`: set the state to paused and clear the event. -/
def pause (a : LLMAgent) : LLMAgent :=
  { a with state := AgentState.paused, pause_event := false }

/-- Embeds `BaseAgent.resume`: set the state to running and set the event. -/
def resume (a : LLMAgent) : LLMAgent :=
  { a with state := AgentState.running, pause_event := true }

/-- Python `s.split(sep)` for a one-character separator (keeps empty parts,
as `str.split` with an explicit separator does). -/
def splitCharList (c : Char) : List Char → List (List Char)
  | [] => [[]]
  | a :: rest =>
      let r := splitCharList c rest
      if a = c then [] :: r
      else
        match r with
        | [] => [[a]]
        | g :: gs => (a :: g) :: gs

/-- Embeds `content.split('\n')`. -/
def splitLines (s : String) : List String :=
  (splitCharList '\n' s.toList).map String.mk

/-- Embeds `'\n'.join(result_lines)`. -/
def joinLines (ls : List String) : String :=
  String.mk (List.intercalate ['\n'] (ls.map String.toList))

/-- Python `str.strip()`. -/
def strip (s : String) : String :=
  String.mk (((s.toList.dropWhile Char.isWhitespace).reverse.dropWhile
    Char.isWhitespace).reverse)

/-- Fuel-structural core of Python `s.replace(pat, rep)`. -/
def replaceSubAux (pat rep : List Char) : Nat → List Char → List Char
  | 0, s => s
  | _ + 1, [] => []
  | fuel + 1, a :: rest =>
      if listStartsWith pat (a :: rest) && !pat.isEmpty then
        rep ++ replaceSubAux pat rep fuel (List.drop (pat.length - 1) rest)
      else a :: replaceSubAux pat rep fuel rest

/-- Python `s.replace(pat, rep)` (for the nonempty patterns the source uses). -/
def replaceSub (s pat rep : String) : String :=
  String.mk (replaceSubAux pat.toList rep.toList s.toList.length s.toList)

/-- The agent's tool registry: tool name → `execute`, with the rendered
`json.dumps(tool_result)` text as the success value and `.error` modelling a
raised exception anywhere in executing or rendering the tool call. -/
def ToolRegistry : Type := String → Option (String → Except String String)

/-- Result of `json.loads(tool_call)` plus the `name`/`params` extraction,
passed in as an oracle: `.ok (name, params)` for a parseable directive
(params kept as their rendered text), `.error` for a raised parse failure. -/
def ParseOracle : Type := String → Except String (String × String)

/-- Embeds `LLMAgent._handle_tool_usage`: split the reply into lines; each line
starting with `use_tool:` is replaced by the executed tool's rendered result,
a not-found notice for an unregistered name, or an execution-error notice for
any raised exception (parse, execution or rendering); other lines pass
through, and processing never aborts. -/
def handle_tool_usage (tools : ToolRegistry) (parse : ParseOracle)
    (content : String) : String :=
  let result_lines := (splitLines content).map (fun line =>
    if listStartsWith "use_tool:".toList line.toList then
      let tool_call := strip (replaceSub line "use_tool:" "")
      match parse tool_call with
      | .error e => "Tool execution error: " ++ e
      | .ok (tool_name, tool_params) =>
          match tools tool_name with
          | some ex =>
              match ex tool_params with
              | .ok tr => "Tool result: " ++ tr
              | .error e => "Tool execution error: " ++ e
          | none => "Tool \x27" ++ tool_name ++ "\x27 not found"
    else line)
  joinLines result_lines

/-- Outcome of the `requests.post` call to the LLM backend inside
`LLMAgent.process`: either the call (or the handling of its body) raised, or
it returned a response with a status code, a parsed reply `content` with a
token count (read on the 200 path), and a raw body `text` (read on the
non-200 path). -/
inductive LLMOutcome
  | raised (e : String)
  | response (status_code : Nat) (content : String) (total_tokens : Nat) (text : String)
deriving DecidableEq, Repr

/-- An outcome the source's `except` branch handles: a raised transport or
parsing error, or a non-success HTTP status. -/
def LLMOutcome.isFailure : LLMOutcome → Bool
  | .raised _ => true
  | .response status_code _ _ _ => status_code ≠ 200

/-- Body of `LLMAgent.process` once the pause event is set.  On a 200
response, `_handle_tool_usage` rewrites the content exactly when the reply
contains the `use_tool:` directive sentinel. -/
def processRun (a : LLMAgent) (tools : ToolRegistry) (parse : ParseOracle)
    (msg : Message) (o : LLMOutcome) (now : ℚ) : LLMAgent × Message :=
  let m0 := a.metrics.getD (initMetrics a.agent_id now)
  match o with
  | .response status_code content total_tokens text =>
      if status_code = 200 then
        let content2 := if containsSubstr content "use_tool:" then
          handle_tool_usage tools parse content else content
        let m1 := { m0 with success_count := m0.success_count + 1,
                            total_tokens := m0.total_tokens + total_tokens }
        let m2 := { m1 with execution_count := m1.execution_count + 1 }
        ({ a with state := AgentState.completed, metrics := some m2 },
         { content := content2, sender := a.agent_id, recipient := msg.sender })
      else
        let m1 := { m0 with error_count := m0.error_count + 1 }
        let m2 := { m1 with execution_count := m1.execution_count + 1 }
        ({ a with state := AgentState.failed, metrics := some m2 },
         { content := "Error: LLM API error: " ++ text, sender := a.agent_id,
           recipient := msg.sender })
  | .raised e =>
      let m1 := { m0 with error_count := m0.error_count + 1 }
      let m2 := { m1 with execution_count := m1.execution_count + 1 }
      ({ a with state := AgentState.failed, metrics := some m2 },
       { content := "Error: " ++ e, sender := a.agent_id, recipient := msg.sender })

/-- Embeds `LLMAgent.process`: `await self.pause_event.wait()` suspends while the
event is clear (`none`); once the event is set the body runs and always
returns a reply message, never an exception. -/
def process (a : LLMAgent) (tools : ToolRegistry) (parse : ParseOracle)
    (msg : Message) (o : LLMOutcome) (now : ℚ) : Option (LLMAgent × Message) :=
  if a.pause_event then some (processRun a tools parse msg o now) else none

/-! ## Orchestrator (`AgentOrchestrator`)

The registry `self.agents` is modelled as a lookup function; one agent's
`process` behaviour on the dispatched message is modelled as
`Message → Except String Message` (`.error` = the coroutine raised). -/

/-- Per-agent behaviour under dispatch. -/
def AgentProc : Type := Message → Except String Message

/-- The registry `self.agents` (`agent_id → agent`). -/
def AgentRegistry : Type := String → Option AgentProc

/-- Embeds `AgentOrchestrator.run_parallel_agents`: create one task per registered
listed agent, `gather` with `return_exceptions=True` (results in task order),
keep only the results that are messages. -/
def run_parallel_agents (agents : AgentRegistry) (agent_ids : List String)
    (message : Message) : List Message :=
  let tasks := agent_ids.filterMap (fun aid => (agents aid).map (fun p => p message))
  tasks.filterMap (fun r => r.toOption)

/-- One pass of the inner `for agent_id in agent_ids` loop of
`run_loop_agents`: run each registered agent on the current message, collect
its result and thread it as the next input; an exception propagates. -/
def run_sequential_pass (agents : AgentRegistry) (agent_ids : List String)
    (message : Message) : Except String (List Message × Message) :=
  match agent_ids with
  | [] => .ok ([], message)
  | aid :: rest =>
    match agents aid with
    | none => run_sequential_pass agents rest message
    | some p =>
      match p message with
      | .error e => .error e
      | .ok r =>
        (run_sequential_pass agents rest r).map (fun lr => (r :: lr.1, lr.2))

/-- The outer `for i in range(max_iterations)` loop of `run_loop_agents`:
after each pass the pass results are appended to the collected list, and the
loop stops early when the pass's last response contains `"CONVERGED"`. -/
def run_loop_aux (agents : AgentRegistry) (agent_ids : List String) :
    Nat → Message → Except String (List Message)
  | 0, _ => .ok []
  | n + 1, message =>
    match run_sequential_pass agents agent_ids message with
    | .error e => .error e
    | .ok (iteration_results, next_message) =>
      if (iteration_results.getLast?.map
            (fun r => containsSubstr r.content "CONVERGED")).getD false then
        .ok iteration_results
      else
        (run_loop_aux agents agent_ids n next_message).map
          (fun rest => iteration_results ++ rest)

/-- Embeds `AgentOrchestrator.run_loop_agents`. -/
def run_loop_agents (agents : AgentRegistry) (agent_ids : List String)
    (message : Message) (max_iterations : Nat) : Except String (List Message) :=
  run_loop_aux agents agent_ids max_iterations message

/-! ## A2A pub/sub channel (`A2AProtocol`) -/

/-- The `A2AProtocol` state: `subscriptions` maps a topic to the agent ids
appended by `subscribe` (a topic "present in the dict" is exactly a topic
with a nonempty subscriber list, since `subscribe` is the only writer);
`message_queue` maps an agent id to its mailbox. -/
structure A2AProtocol where
  message_queue : String → List Message
  subscriptions : String → List String

/-- The freshly constructed protocol (both dicts empty). -/
def A2AProtocol.init : A2AProtocol :=
  ⟨fun _ => [], fun _ => []⟩

/-- Embeds `A2AProtocol.subscribe`. -/
def subscribe (st : A2AProtocol) (agent_id topic : String) : A2AProtocol :=
  { st with subscriptions := fun t =>
      if t = topic then st.subscriptions t ++ [agent_id] else st.subscriptions t }

/-- Embeds `A2AProtocol.publish`: append the message to the mailbox of every
subscriber of the topic, once per occurrence in the subscriber list. -/
def publish (st : A2AProtocol) (topic : String) (m : Message) : A2AProtocol :=
  let q2 := (st.subscriptions topic).foldl
    (fun q aid => fun a => if a = aid then q a ++ [m] else q a) st.message_queue
  { st with message_queue := q2 }

/-- Embeds `A2AProtocol.get_messages`: return the mailbox and clear it. -/
def get_messages (st : A2AProtocol) (agent_id : String) :
    List Message × A2AProtocol :=
  (st.message_queue agent_id,
   { st with message_queue := fun a =>
       if a = agent_id then [] else st.message_queue a })

/-! ## Concrete fixtures used by witnesses and counterexamples -/

/-- A registered, unpaused agent with no metrics yet. -/
def agentW : LLMAgent :=
  ⟨"concierge_001", "AI Concierge", "You are an elite AI Concierge.",
   AgentState.idle, true, none⟩

/-- A user message addressed to that agent. -/
def msgW : Message := ⟨"hello", "user", "concierge_001"⟩

/-- Fixture: an empty tool registry. -/
def emptyTools : ToolRegistry := fun _ => none

/-- Fixture: a parse oracle whose directive parsing always raises. -/
def parseFailW : ParseOracle := fun _ => Except.error "invalid json"

/-- Fixture: a registry whose only tool always raises when executed. -/
def failingTools : ToolRegistry :=
  fun n => if n = "google_search" then some (fun _ => Except.error "boom") else none

/-- Fixture: a parse oracle that parses any directive to the failing tool. -/
def parseOkW : ParseOracle := fun s => Except.ok ("google_search", s)

/-! ## Claims about the agent state machine -/

/-- Claim C1 (amended): `LLMAgent.process` never raises to its caller; on any
failure outcome of the backend call — a transport error, an exception raised
while handling the response body, or a non-success HTTP status (but *not* a
capability/tool error, which is folded as notice text into a successful
reply) — it increments the error and execution counters, moves the agent to
the `failed` state, and returns a Message whose content is an explicit error
description addressed back to the original sender. -/
theorem process_failure_reported (a : LLMAgent) (tools : ToolRegistry)
    (parse : ParseOracle) (msg : Message) (o : LLMOutcome) (now : ℚ)
    (hset : a.pause_event = true) (hfail : o.isFailure = true) :
    ∃ a2 reply, process a tools parse msg o now = some (a2, reply) ∧
      a2.state = AgentState.failed ∧
      a2.metrics.map AgentMetrics.error_count =
        some ((a.metrics.getD (initMetrics a.agent_id now)).error_count + 1) ∧
      a2.metrics.map AgentMetrics.execution_count =
        some ((a.metrics.getD (initMetrics a.agent_id now)).execution_count + 1) ∧
      reply.recipient = msg.sender ∧
      reply.sender = a.agent_id ∧
      ∃ d, reply.content = "Error: " ++ d := by
  have hrun : process a tools parse msg o now = some (processRun a tools parse msg o now) := by
    simp [process, hset]
  refine ⟨(processRun a tools parse msg o now).1, (processRun a tools parse msg o now).2,
    by rw [hrun], ?_, ?_, ?_, ?_, ?_, ?_⟩ <;>
  cases o with
  | raised e =>
      first
      | exact ⟨e, by simp [processRun]⟩
      | simp [processRun]
  | response status_code content total_tokens text =>
      have hsc : ¬ status_code = 200 := by
        simpa [LLMOutcome.isFailure] using hfail
      first
      | exact ⟨"LLM API error: " ++ text, by simp [processRun, hsc]; rfl⟩
      | simp [processRun, hsc]

/-- Witness for C1 at a concrete agent, message and transport failure. -/
theorem process_failure_reported_witness :
    agentW.pause_event = true ∧
    (LLMOutcome.raised "connection refused").isFailure = true ∧
    (∃ a2 reply,
      process agentW emptyTools parseFailW msgW (LLMOutcome.raised "connection refused") 0 =
        some (a2, reply) ∧
      a2.state = AgentState.failed ∧
      a2.metrics.map AgentMetrics.error_count =
        some ((agentW.metrics.getD (initMetrics agentW.agent_id 0)).error_count + 1) ∧
      a2.metrics.map AgentMetrics.execution_count =
        some ((agentW.metrics.getD (initMetrics agentW.agent_id 0)).execution_count + 1) ∧
      reply.recipient = msgW.sender ∧
      reply.sender = agentW.agent_id ∧
      ∃ d, reply.content = "Error: " ++ d) :=
  ⟨rfl, rfl,
   process_failure_reported agentW emptyTools parseFailW msgW (LLMOutcome.raised "connection refused") 0
     rfl rfl⟩

/-- Counterexample to claim C1 as stated: a capability error is *not* a
`process` failure.  A 200 reply whose `use_tool:` directive invokes a
registered tool that raises leaves the agent `completed` with the success
counter (not the error counter) incremented, and the raised tool error is
reported inline as notice text in the reply — contradicting the claim that a
capability error transitions the agent to `failed` and increments the error
counter. -/
theorem capability_error_completes :
    process agentW failingTools parseOkW msgW
        (LLMOutcome.response 200 "use_tool: x" 7 "") 0 =
      some (⟨"concierge_001", "AI Concierge", "You are an elite AI Concierge.",
              AgentState.completed, true,
              some ⟨"concierge_001", 0, none, 1, 1, 0, 7⟩⟩,
            ⟨"Tool execution error: boom", "concierge_001", "user"⟩) ∧
    (process agentW failingTools parseOkW msgW
        (LLMOutcome.response 200 "use_tool: x" 7 "") 0).map
      (fun ar => ar.1.state) ≠ some AgentState.failed := by
  have h : process agentW failingTools parseOkW msgW
      (LLMOutcome.response 200 "use_tool: x" 7 "") 0 =
      some (⟨"concierge_001", "AI Concierge", "You are an elite AI Concierge.",
              AgentState.completed, true,
              some ⟨"concierge_001", 0, none, 1, 1, 0, 7⟩⟩,
            ⟨"Tool execution error: boom", "concierge_001", "user"⟩) := by
    rfl
  refine ⟨h, ?_⟩
  rw [h]
  simp

/-- Claim C9: after `pause()` the agent is paused and `process` suspends
(returns no result); after a concurrent `resume()` the pending `process` runs;
and whenever `process` runs, the returned Message is addressed back to
`msg.sender` and the agent ends `completed` or `failed`, never `paused`. -/
theorem pause_resume_process (a : LLMAgent) (tools : ToolRegistry)
    (parse : ParseOracle) (msg : Message) (o : LLMOutcome) (now : ℚ) :
    (pause a).state = AgentState.paused ∧
    (pause a).pause_event = false ∧
    process (pause a) tools parse msg o now = none ∧
    (resume (pause a)).pause_event = true ∧
    process (resume (pause a)) tools parse msg o now =
      some (processRun (resume (pause a)) tools parse msg o now) ∧
    (processRun a tools parse msg o now).2.recipient = msg.sender ∧
    ((processRun a tools parse msg o now).1.state = AgentState.completed ∨
     (processRun a tools parse msg o now).1.state = AgentState.failed) := by
  refine ⟨rfl, rfl, by simp [process, pause], rfl, by simp [process, resume, pause],
    ?_, ?_⟩ <;>
  · cases o with
    | raised e => simp [processRun]
    | response status_code content total_tokens text =>
        by_cases hsc : status_code = 200 <;> simp [processRun, hsc]

/-! ## Claims about parallel dispatch -/

/-- Fixture: the reply of the first well-behaved agent. -/
def msgR1 : Message := ⟨"reply one", "a1", "user"⟩

/-- Fixture: the reply of the third well-behaved agent. -/
def msgR3 : Message := ⟨"reply three", "a3", "user"⟩

/-- Fixture: a registry of three agents whose middle agent always raises. -/
def regW : AgentRegistry := fun aid =>
  if aid = "a1" then some (fun _ => Except.ok msgR1)
  else if aid = "a2" then some (fun _ => Except.error "boom")
  else if aid = "a3" then some (fun _ => Except.ok msgR3)
  else none

/-- Helper: the parallel batch equals the input-order filterMap keeping
exactly the registered listed agents whose run returned a message. -/
theorem run_parallel_filterMap
    (agents : AgentRegistry) (agent_ids : List String) (message : Message) :
    run_parallel_agents agents agent_ids message =
      agent_ids.filterMap
        (fun aid => (agents aid).bind (fun p => (p message).toOption)) := by
  induction agent_ids with
  | nil => rfl
  | cons aid rest ih =>
    cases hA : agents aid with
    | none =>
        simpa [run_parallel_agents, List.filterMap_cons, hA] using ih
    | some p =>
        cases hp : p message with
        | error e =>
            simpa [run_parallel_agents, List.filterMap_cons, hA, hp,
              Except.toOption] using ih
        | ok r =>
            simpa [run_parallel_agents, List.filterMap_cons, hA, hp,
              Except.toOption] using ih

/-- Claim C2: for every list of agent ids and every message, parallel
dispatch runs every registered listed agent, waits for all of them, and
returns exactly the responses of the agents whose run completed without
raising — a per-agent exception is swallowed and that agent is omitted from
the result, the batch itself never raises — and in particular three agents
of which one raises yield exactly two collected responses. -/
theorem run_parallel_partial_failure :
    (∀ (agents : AgentRegistry) (agent_ids : List String) (message : Message),
      run_parallel_agents agents agent_ids message =
        agent_ids.filterMap
          (fun aid => (agents aid).bind (fun p => (p message).toOption))) ∧
    (∀ (agents : AgentRegistry) (i1 i2 i3 : String) (p1 p2 p3 : AgentProc)
        (msg r1 r3 : Message) (e : String),
        agents i1 = some p1 → agents i2 = some p2 → agents i3 = some p3 →
        p1 msg = .ok r1 → p2 msg = .error e → p3 msg = .ok r3 →
        run_parallel_agents agents [i1, i2, i3] msg = [r1, r3] ∧
        (run_parallel_agents agents [i1, i2, i3] msg).length = 2) := by
  refine ⟨run_parallel_filterMap, ?_⟩
  intro agents i1 i2 i3 p1 p2 p3 msg r1 r3 e h1 h2 h3 hp1 hp2 hp3
  have heq : run_parallel_agents agents [i1, i2, i3] msg = [r1, r3] := by
    simp [run_parallel_agents, h1, h2, h3, hp1, hp2, hp3, Except.toOption]
  exact ⟨heq, by rw [heq]; rfl⟩

/-- Witness for C2 at the concrete three-agent registry. -/
theorem run_parallel_partial_failure_witness :
    regW "a1" = some (fun _ => Except.ok msgR1) ∧
    regW "a2" = some (fun _ => Except.error "boom") ∧
    regW "a3" = some (fun _ => Except.ok msgR3) ∧
    run_parallel_agents regW ["a1", "a2", "a3"] msgW = [msgR1, msgR3] ∧
    (run_parallel_agents regW ["a1", "a2", "a3"] msgW).length = 2 :=
  ⟨rfl, rfl, rfl,
   (run_parallel_partial_failure.2 regW "a1" "a2" "a3" _ _ _ msgW msgR1 msgR3 "boom"
     rfl rfl rfl rfl rfl rfl).1,
   (run_parallel_partial_failure.2 regW "a1" "a2" "a3" _ _ _ msgW msgR1 msgR3 "boom"
     rfl rfl rfl rfl rfl rfl).2⟩

/-- Claim C10: the parallel result list is input-order preserving: it is the
listed-id sequence mapped to responses, with unregistered ids and raising
agents removed (a consequence of `asyncio.gather` returning results in task
creation order). -/
theorem run_parallel_order_preserving
    (agents : AgentRegistry) (agent_ids : List String) (message : Message) :
    run_parallel_agents agents agent_ids message =
      agent_ids.filterMap
        (fun aid => (agents aid).bind (fun p => (p message).toOption)) :=
  run_parallel_filterMap agents agent_ids message

/-! ## Claims about loop dispatch -/

/-- Helper: one sequential pass collects at most one response per listed id. -/
theorem run_sequential_pass_length (agents : AgentRegistry) :
    ∀ (ids : List String) (m : Message) (l : List Message) (m2 : Message),
      run_sequential_pass agents ids m = .ok (l, m2) → l.length ≤ ids.length := by
  intro ids
  induction ids with
  | nil =>
      intro m l m2 h
      simp only [run_sequential_pass, Except.ok.injEq, Prod.mk.injEq] at h
      obtain ⟨rfl, rfl⟩ := h.symm
      simp
  | cons aid rest ih =>
      intro m l m2 h
      unfold run_sequential_pass at h
      split at h
      · exact le_trans (ih _ _ _ h) (Nat.le_succ _)
      · split at h
        · cases h
        · rename_i p _ r _
          cases hrec : run_sequential_pass agents rest r with
          | error e2 => rw [hrec] at h; cases h
          | ok pr =>
              rw [hrec] at h
              simp only [Except.map, Except.ok.injEq, Prod.mk.injEq] at h
              obtain ⟨rfl, rfl⟩ := h.symm
              simpa using Nat.succ_le_succ (ih _ _ _ hrec)

/-- Helper: the loop collects at most `max_iterations` passes' worth of
responses. -/
theorem run_loop_aux_length (agents : AgentRegistry) (ids : List String) :
    ∀ (n : Nat) (m : Message) (res : List Message),
      run_loop_aux agents ids n m = .ok res → res.length ≤ n * ids.length := by
  intro n
  induction n with
  | zero =>
      intro m res h
      simp only [run_loop_aux, Except.ok.injEq] at h
      simp [← h]
  | succ k ih =>
      intro m res h
      unfold run_loop_aux at h
      split at h
      · cases h
      · rename_i rs m2 _
        have hpass := run_sequential_pass_length agents ids m rs m2 (by assumption)
        split at h
        · simp only [Except.ok.injEq] at h
          subst h
          calc rs.length ≤ ids.length := hpass
            _ ≤ (k + 1) * ids.length := Nat.le_mul_of_pos_left _ (Nat.succ_pos k)
        · cases hrec : run_loop_aux agents ids k m2 with
          | error e2 => rw [hrec] at h; cases h
          | ok rest =>
              rw [hrec] at h
              simp only [Except.map, Except.ok.injEq] at h
              subst h
              have := ih m2 rest hrec
              simp only [List.length_append, Nat.succ_mul]
              omega

/-- Fixture: an agent that replies "working" to the initial message and the
convergence sentinel to anything else — i.e. it returns the sentinel on its
second invocation of a loop that threads its own replies back to it. -/
def convProc : AgentProc := fun m =>
  .ok { content := if m.content = "start" then "working" else "CONVERGED",
        sender := "conv", recipient := m.sender }

/-- Fixture: a registry holding only the converging agent. -/
def convReg : AgentRegistry := fun aid => if aid = "conv" then some convProc else none

/-- Claim C3: loop dispatch makes at most `max_iterations` sequential passes,
collecting every intermediate response, and stops as soon as the most recent
response's content contains the `"CONVERGED"` sentinel; a single agent that
returns the sentinel on its second invocation, run with max iterations 5,
stops after 2 iterations with exactly the 2 collected responses. -/
theorem run_loop_convergence :
    (∀ (agents : AgentRegistry) (ids : List String) (m : Message) (n : Nat)
        (res : List Message), run_loop_agents agents ids m n = .ok res →
        res.length ≤ n * ids.length) ∧
    (∀ (agents : AgentRegistry) (ids : List String) (m : Message) (n : Nat)
        (rs : List Message) (m2 : Message),
        run_sequential_pass agents ids m = .ok (rs, m2) →
        (rs.getLast?.map
          (fun r => containsSubstr r.content "CONVERGED")).getD false = true →
        run_loop_agents agents ids m (n + 1) = .ok rs) ∧
    run_loop_agents convReg ["conv"] ⟨"start", "user", "conv"⟩ 5 =
      .ok [⟨"working", "conv", "user"⟩, ⟨"CONVERGED", "conv", "conv"⟩] ∧
    run_loop_agents convReg ["conv"] ⟨"start", "user", "conv"⟩ 1 =
      .ok [⟨"working", "conv", "user"⟩] := by
  refine ⟨fun agents ids m n res h => run_loop_aux_length agents ids n m res h,
    fun agents ids m n rs m2 hpass hconv => ?_, rfl, rfl⟩
  unfold run_loop_agents run_loop_aux
  rw [hpass]
  simp [hconv]

/-- Witness for C3: the bound instantiated at the concrete converging run. -/
theorem run_loop_convergence_witness :
    run_loop_agents convReg ["conv"] ⟨"start", "user", "conv"⟩ 5 =
      .ok [⟨"working", "conv", "user"⟩, ⟨"CONVERGED", "conv", "conv"⟩] ∧
    ([(⟨"working", "conv", "user"⟩ : Message),
      ⟨"CONVERGED", "conv", "conv"⟩]).length ≤ 5 * (["conv"].length) :=
  ⟨run_loop_convergence.2.2.1,
   run_loop_convergence.1 convReg ["conv"] ⟨"start", "user", "conv"⟩ 5 _
     run_loop_convergence.2.2.1⟩

/-! ## Claims about the span lifecycle -/

/-- Fixture: a span started at time 0 and not yet finished. -/
def spanCx : Span := ⟨"s1", "t1", none, "op", 0, none, "active"⟩

/-- Counterexample to claim C5 as stated: `finish` is not guarded, so a
second call to `finish` at a later wall-clock time overwrites the recorded
`end_time` and changes the reported duration. -/
theorem span_finish_overwrites :
    ((spanCx.finish 1).finish 2).end_time ≠ (spanCx.finish 1).end_time ∧
    ((spanCx.finish 1).finish 2).duration 3 ≠ (spanCx.finish 1).duration 3 := by
  constructor <;> norm_num [spanCx, Span.finish, Span.duration]

/-- Claim C5 (amended): `end_time` is written only by `finish`, which stamps
the current time (at or after `start_time` under a monotone clock); before
any `finish`, `duration` is the non-negative elapsed time and is monotone in
the wall clock; after a `finish`, `duration` is independent of the clock and
stays fixed as long as `finish` is not called again — but `finish` is
unguarded, so a repeated `finish` re-stamps `end_time` with the new current
time. -/
theorem span_lifecycle (s : Span) (now now2 : ℚ)
    (hunf : s.end_time = none) (hstart : s.start_time ≤ now) (hle : now ≤ now2) :
    0 ≤ s.duration now ∧
    s.duration now = now - s.start_time ∧
    s.duration now ≤ s.duration now2 ∧
    (s.finish now).end_time = some now ∧
    (s.finish now).status = "finished" ∧
    (∀ t : ℚ, (s.finish now).duration t = now - s.start_time) ∧
    ((s.finish now).finish now2).end_time = some now2 := by
  refine ⟨?_, ?_, ?_, rfl, rfl, fun t => rfl, rfl⟩ <;>
    simp [Span.duration, hunf] <;> linarith

/-- Witness for C5 (amended) at the concrete span and times 1 ≤ 2. -/
theorem span_lifecycle_witness :
    spanCx.end_time = none ∧ spanCx.start_time ≤ 1 ∧ (1 : ℚ) ≤ 2 ∧
    (0 ≤ spanCx.duration 1 ∧
     spanCx.duration 1 = 1 - spanCx.start_time ∧
     spanCx.duration 1 ≤ spanCx.duration 2 ∧
     (spanCx.finish 1).end_time = some 1 ∧
     (spanCx.finish 1).status = "finished" ∧
     (∀ t : ℚ, (spanCx.finish 1).duration t = 1 - spanCx.start_time) ∧
     ((spanCx.finish 1).finish 2).end_time = some 2) :=
  ⟨rfl, by norm_num [spanCx], by norm_num,
   span_lifecycle spanCx 1 2 rfl (by norm_num [spanCx]) (by norm_num)⟩

/-! ## Claims about the metrics export -/

/-- Fixture: a single recorded timer sample of value 5. -/
def timerSample : Metric := ⟨"t", MetricType.timer, 5, 0⟩

/-- Helper: the summary of the single timer sample. -/
theorem summary_timerSample :
    get_metric_summary "t" [timerSample] =
      some ⟨"t", MetricType.timer, 1, 5, 0, some ⟨5, 5, 5, 5, 5, 5⟩⟩ := by
  have h1 : lastN 100 [timerSample] = [timerSample] := by norm_num [lastN]
  unfold get_metric_summary
  rw [h1]
  norm_num [timerSample, listMin, listMax, percentile_singleton]

/-- Counterexample to claim C6 as stated: a timer-kind metric does *not* get
`_count`/`_sum` lines — the histogram test is `type == "histogram"` only, so
a timer falls into the plain `name value` branch. -/
theorem prometheus_timer_plain_line :
    export_metric_lines "t" [timerSample] =
      ["# HELP t timer metric", "# TYPE t timer", "t 5"] ∧
    ∀ l ∈ export_metric_lines "t" [timerSample],
      containsSubstr l "_count" = false ∧ containsSubstr l "_sum" = false := by
  have h : export_metric_lines "t" [timerSample] =
      ["# HELP t timer metric", "# TYPE t timer", "t 5"] := by
    unfold export_metric_lines
    rw [summary_timerSample]
    rfl
  refine ⟨h, ?_⟩
  rw [h]
  decide

/-- Claim C6 (amended): every metric name yields one `name value` line in the
textual export, except that metrics of *histogram* kind (only — not timer)
instead emit derived `_count` and `_sum` lines computed from the summary. -/
theorem prometheus_export_lines (name : String) (samples : List Metric)
    (su : MetricSummary) (h : get_metric_summary name samples = some su) :
    (su.metric_type = MetricType.histogram →
      export_metric_lines name samples =
        ["# HELP " ++ promName name ++ " histogram metric",
         "# TYPE " ++ promName name ++ " histogram",
         promName name ++ "_count " ++ toString su.count,
         promName name ++ "_sum " ++
           ratStr ((su.hist.map HistStats.avg).getD 0 * (su.count : ℚ))]) ∧
    (su.metric_type ≠ MetricType.histogram →
      export_metric_lines name samples =
        ["# HELP " ++ promName name ++ " " ++ su.metric_type.str ++ " metric",
         "# TYPE " ++ promName name ++ " " ++ su.metric_type.str,
         promName name ++ " " ++ ratStr su.latest]) := by
  constructor <;> intro ht <;>
    · unfold export_metric_lines
      rw [h]
      simp [ht, MetricType.str, String.append_assoc]

/-- Witness for C6 (amended): the histogram branch at the four-value
histogram fixture, whose `_sum` is avg · count = 100. -/
theorem prometheus_export_lines_witness :
    get_metric_summary "h" histSamples4 =
      some ⟨"h", MetricType.histogram, 4, 40, 3, some ⟨10, 40, 25, 30, 40, 40⟩⟩ ∧
    export_metric_lines "h" histSamples4 =
      ["# HELP h histogram metric", "# TYPE h histogram",
       "h_count 4", "h_sum 100"] := by
  refine ⟨summary_histSamples4, ?_⟩
  have h2 := (prometheus_export_lines "h" histSamples4 _ summary_histSamples4).1 rfl
  rw [h2]
  norm_num
  exact ⟨rfl, rfl, rfl, rfl⟩

/-- Claim C7: `export_metrics` answers the two supported format names with
the exported text and reports any other format name as an explicit
configuration error rather than crashing. -/
theorem export_metrics_dispatch (c : MetricsCollector) (fmt : String)
    (hp : fmt ≠ "prometheus") (hj : fmt ≠ "json") :
    export_metrics c fmt = .error ("Unsupported format: " ++ fmt) ∧
    export_metrics c "prometheus" = .ok (export_prometheus_format c) ∧
    export_metrics c "json" = .ok (export_json_format c) := by
  refine ⟨?_, rfl, rfl⟩
  simp [export_metrics, hp, hj]

/-- Witness for C7 at the format name "xml" and an empty collector. -/
theorem export_metrics_dispatch_witness :
    ("xml" : String) ≠ "prometheus" ∧ ("xml" : String) ≠ "json" ∧
    (export_metrics ⟨[]⟩ "xml" = .error ("Unsupported format: " ++ "xml") ∧
     export_metrics ⟨[]⟩ "prometheus" = .ok (export_prometheus_format ⟨[]⟩) ∧
     export_metrics ⟨[]⟩ "json" = .ok (export_json_format ⟨[]⟩)) :=
  ⟨by decide, by decide, export_metrics_dispatch ⟨[]⟩ "xml" (by decide) (by decide)⟩

/-! ## Claim about the A2A channel -/

/-- Helper: the publish fold appends the message once per occurrence of an
agent id in the subscriber list. -/
theorem publish_fold (m : Message) :
    ∀ (subs : List String) (q : String → List Message) (a : String),
      (subs.foldl (fun q2 aid => fun x => if x = aid then q2 x ++ [m] else q2 x) q) a
        = q a ++ List.replicate (subs.count a) m := by
  intro subs
  induction subs with
  | nil => intro q a; simp
  | cons s rest ih =>
      intro q a
      rw [List.foldl_cons, ih]
      by_cases has : a = s
      · subst has
        simp [List.count_cons, List.replicate_succ]
      · have : (s == a) = false := by simpa using fun h => has h.symm
        simp [List.count_cons, this, has]

/-- Claim C8: `publish` appends the message to the mailbox of every agent
subscribed to the topic, `get_messages` returns the accumulated mailbox and
clears it, and concretely `publish "t" m` after `subscribe "agent" "t"`
makes two consecutive `get_messages "agent"` calls return `[m]` then `[]`. -/
theorem a2a_publish_read_once (st : A2AProtocol) (topic : String) (m : Message)
    (aid : String) :
    (publish st topic m).message_queue aid =
      st.message_queue aid ++ List.replicate ((st.subscriptions topic).count aid) m ∧
    (get_messages st aid).1 = st.message_queue aid ∧
    (get_messages st aid).2.message_queue aid = [] ∧
    ((get_messages (publish (subscribe A2AProtocol.init "agent" "t") "t" m)
        "agent").1 = [m] ∧
     (get_messages
        ((get_messages (publish (subscribe A2AProtocol.init "agent" "t") "t" m)
          "agent").2) "agent").1 = []) := by
  refine ⟨publish_fold m (st.subscriptions topic) st.message_queue aid, rfl,
    by simp [get_messages], rfl, rfl⟩

end Concierge
